import Mathlib

/-!
Shallow embedding of `llmd-xks-checks.py` (LLMD xKS preflight checks).

A node, as read from the Kubernetes node-listing call, carries a name, a
label mapping (string keys to string values) and an allocatable-resource
mapping (resource name to integer quantity, the Python code converts the
quantity with `int(...)`).  Python dictionaries are modelled as association
lists with first-match lookup; dictionaries produced by the API have unique
keys, and every function below reads them through the same lookup helpers.
-/

structure Node where
  name : String
  labels : List (String × String)
  allocatable : List (String × Int)
deriving DecidableEq

/-- Python `key in labels` on a node's label dictionary. -/
def hasLabel (n : Node) (key : String) : Bool :=
  n.labels.any (fun kv => kv.1 == key)

/-- Python `labels[key]` as an option (first matching key). -/
def labelLookup (n : Node) (key : String) : Option String :=
  (n.labels.find? (fun kv => kv.1 == key)).map (fun kv => kv.2)

/-- Python `node.status.allocatable[key]` as an option (first matching key). -/
def allocLookup (n : Node) (key : String) : Option Int :=
  (n.allocatable.find? (fun kv => kv.1 == key)).map (fun kv => kv.2)

/-- The GPU-presence label key tested at line 96 of the source. -/
def gpuPresentLabel : String := "nvidia.com/gpu.present"

/-- The NVIDIA GPU allocatable-resource key tested at line 79 of the source. -/
def gpuResourceKey : String := "nvidia.com/gpu"

/-- Embedding of `nvidia_driver_present` (source lines 78-87): the node's allocatable
mapping holds the NVIDIA GPU resource key and `int(...)` of its quantity is
strictly positive; a missing key or a non-positive quantity yields `False`. -/
def nvidia_driver_present (node : Node) : Bool :=
  match allocLookup node gpuResourceKey with
  | some q => decide (0 < q)
  | none => false

/-- The node loop of `test_gpu_availablity` (source lines 94-102), carrying
the `accelerators["other"]` counter.  `none` models the early `return False`
taken when a GPU-labeled node lacks working drivers; `some other` is the
final value of the "other" bucket when the loop runs to completion. -/
def gpuScan : List Node → Nat → Option Nat
  | [], other => some other
  | node :: rest, other =>
    if hasLabel node gpuPresentLabel then
      if nvidia_driver_present node then gpuScan rest other
      else none
    else gpuScan rest (other + 1)

/-- Embedding of `test_gpu_availablity` (source lines 77-108): scan the nodes; fail early
on a GPU-labeled node without drivers; after the scan fail iff the "other"
bucket equals the total node count. -/
def test_gpu_availablity (nodes : List Node) : Bool :=
  match gpuScan nodes 0 with
  | none => false
  | some other => !(other == nodes.length)

/-- The Azure cluster label key tested at line 153 of the source. -/
def azureClusterLabel : String := "kubernetes.azure.com/cluster"

/-- Python `max(d, key=d.get)` over an association list in insertion order:
the first key attaining the maximal value (`max` keeps the earlier element
on ties, so the incumbent is replaced only by a strictly greater value). -/
def maxKeyFrom (best : String × Nat) : List (String × Nat) → String
  | [] => best.1
  | kv :: rest => if best.2 < kv.2 then maxKeyFrom kv rest else maxKeyFrom best rest

/-- Embedding of `detect_cloud_provider` (source lines 144-156): count nodes carrying the
Azure cluster label into the `clouds` dictionary `{none: 0, azure: count,
aws: 0}` (insertion order none, azure, aws) and return the first key with
the maximal count. -/
def detect_cloud_provider (nodes : List Node) : String :=
  maxKeyFrom ("none", 0)
    [("azure", nodes.countP (fun n => hasLabel n azureClusterLabel)), ("aws", 0)]

/-- The legacy instance-type label key read at line 123 of the source. -/
def instanceTypeLabel : String := "beta.kubernetes.io/instance-type"

/-- The `instance_types` dictionary of `azure_instance_type` (source lines
113-119): the five allow-listed Azure GPU SKUs, each seeded at zero, in
insertion order. -/
def instanceTypesInit : List (String × Nat) :=
  [("Standard_NC24ads_A100_v4", 0),
   ("Standard_ND96asr_v4", 0),
   ("Standard_ND96amsr_A100_v4", 0),
   ("Standard_ND96isr_H100_v5", 0),
   ("Standard_ND96isr_H200_v5", 0)]

/-- The allow-listed SKU names (the keys of `instance_types`). -/
def skuNames : List String := instanceTypesInit.map Prod.fst

/-- Embedding of `instance_types[key] += 1` guarded by `try/except KeyError: pass`
(source lines 124-128): increment the entry for `key` when the dictionary
holds it, otherwise leave the dictionary unchanged. -/
def incKey (key : String) : List (String × Nat) → List (String × Nat)
  | [] => []
  | kv :: rest => if kv.1 == key then (kv.1, kv.2 + 1) :: rest else kv :: incKey key rest

/-- The node loop of `azure_instance_type` (source lines 121-128): for each
node with the instance-type label, bump the counter for its value. -/
def countInstanceTypes : List Node → List (String × Nat) → List (String × Nat)
  | [], counts => counts
  | node :: rest, counts =>
    match labelLookup node instanceTypeLabel with
    | some v => countInstanceTypes rest (incKey v counts)
    | none => countInstanceTypes rest counts

/-- Dictionary indexing `d[key]` on a counter table (first matching key;
`0` for a missing key, which no reachable call hits). -/
def lookupNat (l : List (String × Nat)) (key : String) : Nat :=
  match l.find? (fun kv => kv.1 == key) with
  | some kv => kv.2
  | none => 0

/-- Embedding of `azure_instance_type` (source lines 112-136): build the SKU counters,
take `max_instance_type = max(instance_types, key=instance_types.get)`, and
fail iff its count is zero.  The `[]` branch is unreachable: the counters
always keep the five keys of `instanceTypesInit`. -/
def azure_instance_type (nodes : List Node) : Bool :=
  match countInstanceTypes nodes instanceTypesInit with
  | [] => false
  | c :: cs => !(lookupNat (c :: cs) (maxKeyFrom c cs) == 0)

/-- Embedding of `test_instance_type` (source lines 111-142): only the azure provider is
supported; any other provider fails immediately without listing nodes. -/
def test_instance_type (cloud_provider : String) (nodes : List Node) : Bool :=
  if cloud_provider == "azure" then azure_instance_type nodes else false

/-! ### Helper lemmas for the GPU-availability check -/

/-- Nodes counted in the `accelerators["other"]` bucket: no GPU-presence label. -/
def gpuOther (n : Node) : Bool := !hasLabel n gpuPresentLabel

/-- A node the scan steps over without failing: either unlabeled, or
GPU-labeled with working drivers. -/
def gpuOk (n : Node) : Bool := !hasLabel n gpuPresentLabel || nvidia_driver_present n

theorem gpuScan_eq (nodes : List Node) : ∀ other, gpuScan nodes other =
    if nodes.all gpuOk then some (other + nodes.countP gpuOther) else none := by
  induction nodes with
  | nil => intro other; simp [gpuScan]
  | cons node rest ih =>
    intro other
    by_cases hl : hasLabel node gpuPresentLabel
    · by_cases hd : nvidia_driver_present node
      · simp [gpuScan, hl, hd, ih, gpuOk, gpuOther, List.countP_cons]
      · simp [gpuScan, hl, hd, gpuOk, gpuOther]
    · have hcount : (node :: rest).countP gpuOther = rest.countP gpuOther + 1 := by
        simp [List.countP_cons, gpuOther, hl]
      simp only [gpuScan, hl, if_neg, Bool.false_eq_true, not_false_iff, ih, hcount,
        List.all_cons, gpuOk, hl, Bool.not_false, Bool.true_or, Bool.true_and]
      split
      · simp only [Option.some.injEq]
        omega
      · rfl

theorem test_gpu_eq (nodes : List Node) :
    test_gpu_availablity nodes =
      (nodes.any (fun n => hasLabel n gpuPresentLabel) && nodes.all gpuOk) := by
  unfold test_gpu_availablity
  rw [gpuScan_eq]
  by_cases hall : nodes.all gpuOk = true
  · simp only [hall, if_pos, Bool.and_true, Nat.zero_add]
    cases hany : nodes.any (fun n => hasLabel n gpuPresentLabel) with
    | false =>
      have hforall : ∀ n ∈ nodes, gpuOther n = true := by
        intro n hn
        have := List.any_eq_false.mp hany n hn
        simp [gpuOther, this]
      have : nodes.countP gpuOther = nodes.length := List.countP_eq_length.mpr hforall
      simp [this]
    | true =>
      obtain ⟨n, hn, hlab⟩ := List.any_eq_true.mp hany
      have hlt : nodes.countP gpuOther < nodes.length := by
        rcases Nat.lt_or_ge (nodes.countP gpuOther) nodes.length with h | h
        · exact h
        · exfalso
          have heq : nodes.countP gpuOther = nodes.length :=
            Nat.le_antisymm (List.countP_le_length _) h
          have := List.countP_eq_length.mp heq n hn
          simp [gpuOther, hlab] at this
      have : (nodes.countP gpuOther == nodes.length) = false := by
        simp [Nat.ne_of_lt hlt]
      simp [this]
  · simp [hall, Bool.and_false]

theorem nvidia_driver_present_iff (n : Node) :
    nvidia_driver_present n = true ↔
      ∃ q : Int, allocLookup n gpuResourceKey = some q ∧ 0 < q := by
  unfold nvidia_driver_present
  cases h : allocLookup n gpuResourceKey <;> simp [h]

theorem gpuOk_iff (n : Node) :
    gpuOk n = true ↔ (hasLabel n gpuPresentLabel = true →
      ∃ q : Int, allocLookup n gpuResourceKey = some q ∧ 0 < q) := by
  unfold gpuOk
  cases h : hasLabel n gpuPresentLabel <;> simp [h, nvidia_driver_present_iff]

/-- Concrete sample node: GPU-labeled with four allocatable GPUs. -/
def goodNode : Node :=
  ⟨"good", [("nvidia.com/gpu.present", "true")], [("nvidia.com/gpu", 4)]⟩

/-- Concrete sample node: GPU-labeled with zero allocatable GPUs. -/
def badNode : Node :=
  ⟨"bad", [("nvidia.com/gpu.present", "true")], [("nvidia.com/gpu", 0)]⟩

/-- Concrete sample node: no GPU-presence label. -/
def plainNode : Node := ⟨"plain", [("kubernetes.io/os", "linux")], []⟩

/-- C1: the GPU-availability check returns true iff at least one node
carries the GPU-presence label and every node carrying that label has the
`nvidia.com/gpu` allocatable key with a strictly positive quantity; in
particular a zero-node cluster fails the check. -/
theorem gpu_availability_iff :
    (∀ nodes : List Node,
      (test_gpu_availablity nodes = true ↔
        (∃ n ∈ nodes, hasLabel n gpuPresentLabel = true) ∧
        (∀ n ∈ nodes, hasLabel n gpuPresentLabel = true →
          ∃ q : Int, allocLookup n gpuResourceKey = some q ∧ 0 < q))) ∧
    test_gpu_availablity [] = false := by
  constructor
  · intro nodes
    rw [test_gpu_eq]
    simp [List.any_eq_true, List.all_eq_true, gpuOk_iff]
  · rfl

/-- C6: once the scan reaches a GPU-labeled node whose driver sub-condition
fails, the loop returns `False` right there: the scan of `bad :: suf` is
`none` for every suffix `suf` and every counter value (the remaining nodes
are never evaluated), and the whole check on `pre ++ bad :: suf` fails. -/
theorem gpu_short_circuit (pre suf : List Node) (bad : Node)
    (hlab : hasLabel bad gpuPresentLabel = true)
    (hdrv : nvidia_driver_present bad = false) :
    (∀ other : Nat, gpuScan (bad :: suf) other = none) ∧
    test_gpu_availablity (pre ++ bad :: suf) = false := by
  constructor
  · intro other
    simp [gpuScan, hlab, hdrv]
  · have hok : gpuOk bad = false := by simp [gpuOk, hlab, hdrv]
    have hall : (pre ++ bad :: suf).all gpuOk = false :=
      List.all_eq_false.mpr ⟨bad, by simp, by simp [hok]⟩
    simp [test_gpu_eq, hall]

theorem gpu_short_circuit_witness :
    hasLabel badNode gpuPresentLabel = true ∧
    nvidia_driver_present badNode = false ∧
    gpuScan (badNode :: [plainNode]) 0 = none ∧
    test_gpu_availablity ([goodNode] ++ badNode :: [plainNode]) = false :=
  ⟨by decide, by decide,
    (gpu_short_circuit [goodNode] [plainNode] badNode (by decide) (by decide)).1 0,
    (gpu_short_circuit [goodNode] [plainNode] badNode (by decide) (by decide)).2⟩

/-- C10: the boolean outcome of the GPU-availability check is invariant
under every permutation of the node list, despite the short-circuit. -/
theorem gpu_perm_invariant (l1 l2 : List Node) (h : l1.Perm l2) :
    test_gpu_availablity l1 = test_gpu_availablity l2 := by
  rw [test_gpu_eq, test_gpu_eq, List.any_eq, List.any_eq, List.all_eq, List.all_eq]
  simp only [h.mem_iff]

theorem gpu_perm_invariant_witness :
    (List.Perm [badNode, goodNode] [goodNode, badNode]) ∧
    test_gpu_availablity [badNode, goodNode] =
      test_gpu_availablity [goodNode, badNode] :=
  ⟨List.Perm.swap goodNode badNode [],
    gpu_perm_invariant [badNode, goodNode] [goodNode, badNode]
      (List.Perm.swap goodNode badNode [])⟩

/-! ### Helper lemmas for cloud-provider detection -/

theorem detect_eq (nodes : List Node) :
    detect_cloud_provider nodes =
      if nodes.any (fun n => hasLabel n azureClusterLabel) then "azure" else "none" := by
  unfold detect_cloud_provider
  cases hany : nodes.any (fun n => hasLabel n azureClusterLabel) with
  | false =>
    have hcount : nodes.countP (fun n => hasLabel n azureClusterLabel) = 0 := by
      rw [List.countP_eq_zero]
      intro n hn
      exact List.any_eq_false.mp hany n hn
    simp [hcount, maxKeyFrom]
  | true =>
    have hpos : 0 < nodes.countP (fun n => hasLabel n azureClusterLabel) := by
      rw [List.countP_pos_iff]
      obtain ⟨n, hn, hp⟩ := List.any_eq_true.mp hany
      exact ⟨n, hn, hp⟩
    simp only [maxKeyFrom, hpos, if_pos]
    have : ¬ nodes.countP (fun n => hasLabel n azureClusterLabel) < 0 := Nat.not_lt_zero _
    simp [this, hany]

/-- Concrete sample node carrying the Azure cluster label. -/
def azureNode : Node :=
  ⟨"aks-1", [("kubernetes.azure.com/cluster", "MC_rg_aks_eastus")], []⟩

/-- C2: `detect_cloud_provider` returns "azure" exactly when some node
carries the Azure cluster label, "none" otherwise (the empty list
included), and never returns "aws". -/
theorem detect_provider_spec :
    (∀ nodes : List Node,
      (detect_cloud_provider nodes = "azure" ↔
        ∃ n ∈ nodes, hasLabel n azureClusterLabel = true) ∧
      (detect_cloud_provider nodes = "none" ↔
        ¬ ∃ n ∈ nodes, hasLabel n azureClusterLabel = true) ∧
      (detect_cloud_provider nodes == "aws") = false) ∧
    detect_cloud_provider [] = "none" := by
  constructor
  · intro nodes
    rw [detect_eq]
    cases hany : nodes.any (fun n => hasLabel n azureClusterLabel) with
    | false =>
      have hno : ∀ n ∈ nodes, hasLabel n azureClusterLabel = false := by
        intro n hn
        have h := List.any_eq_false.mp hany n hn
        simpa using h
      have hne : ¬ ∃ n ∈ nodes, hasLabel n azureClusterLabel = true := by
        rintro ⟨n, hn, hp⟩
        rw [hno n hn] at hp
        exact Bool.false_ne_true hp
      exact ⟨⟨fun h => absurd h (by decide), fun h => absurd h hne⟩,
             ⟨fun _ => hne, fun _ => rfl⟩,
             by decide⟩
    | true =>
      obtain ⟨n, hn, hp⟩ := List.any_eq_true.mp hany
      have hex : ∃ n ∈ nodes, hasLabel n azureClusterLabel = true := ⟨n, hn, hp⟩
      exact ⟨⟨fun _ => hex, fun _ => rfl⟩,
             ⟨fun h => absurd h (by decide), fun h => absurd hex h⟩,
             by decide⟩
  · rfl

/-! ### Helper lemmas for the instance-type check -/

/-- Companion to `maxKeyFrom` that keeps the whole winning entry. -/
def maxPairFrom (best : String × Nat) : List (String × Nat) → String × Nat
  | [] => best
  | kv :: rest => if best.2 < kv.2 then maxPairFrom kv rest else maxPairFrom best rest

theorem maxKeyFrom_eq_fst (l : List (String × Nat)) :
    ∀ best, maxKeyFrom best l = (maxPairFrom best l).1 := by
  induction l with
  | nil => intro best; rfl
  | cons kv rest ih =>
    intro best
    by_cases h : best.2 < kv.2 <;> simp [maxKeyFrom, maxPairFrom, h, ih]

theorem maxPairFrom_mem (l : List (String × Nat)) :
    ∀ best, maxPairFrom best l ∈ best :: l := by
  induction l with
  | nil => intro best; simp [maxPairFrom]
  | cons kv rest ih =>
    intro best
    by_cases h : best.2 < kv.2
    · simp only [maxPairFrom, if_pos h]
      exact List.mem_cons_of_mem best (ih kv)
    · simp only [maxPairFrom, if_neg h]
      rcases List.mem_cons.mp (ih best) with h1 | h1
      · rw [h1]; exact List.mem_cons_self best (kv :: rest)
      · exact List.mem_cons_of_mem best (List.mem_cons_of_mem kv h1)

theorem maxPairFrom_ge (l : List (String × Nat)) :
    ∀ best, ∀ kv ∈ best :: l, kv.2 ≤ (maxPairFrom best l).2 := by
  induction l with
  | nil =>
    intro best kv hkv
    have h1 : kv = best := by simpa using hkv
    rw [h1]
    exact Nat.le_refl _
  | cons p rest ih =>
    intro best kv hkv
    by_cases hlt : best.2 < p.2
    · simp only [maxPairFrom, if_pos hlt]
      rcases List.mem_cons.mp hkv with h1 | h1
      · rw [h1]
        exact Nat.le_trans (Nat.le_of_lt hlt) (ih p p (List.mem_cons_self p rest))
      · rcases List.mem_cons.mp h1 with h2 | h2
        · rw [h2]; exact ih p p (List.mem_cons_self p rest)
        · exact ih p kv (List.mem_cons_of_mem p h2)
    · simp only [maxPairFrom, if_neg hlt]
      rcases List.mem_cons.mp hkv with h1 | h1
      · rw [h1]; exact ih best best (List.mem_cons_self best rest)
      · rcases List.mem_cons.mp h1 with h2 | h2
        · rw [h2]
          exact Nat.le_trans (Nat.not_lt.mp hlt) (ih best best (List.mem_cons_self best rest))
        · exact ih best kv (List.mem_cons_of_mem best h2)

theorem lookupNat_of_nodup (l : List (String × Nat)) (hnd : (l.map Prod.fst).Nodup) :
    ∀ kv ∈ l, lookupNat l kv.1 = kv.2 := by
  induction l with
  | nil => intro kv hkv; simp at hkv
  | cons p rest ih =>
    intro kv hkv
    have hnd2 : (p.1 :: rest.map Prod.fst).Nodup := by
      rw [List.map_cons] at hnd; exact hnd
    have hnd' := List.nodup_cons.mp hnd2
    rcases List.mem_cons.mp hkv with h1 | h1
    · rw [h1]
      simp [lookupNat, List.find?]
    · have hne : (p.1 == kv.1) = false := by
        rw [beq_eq_false_iff_ne]
        intro he
        exact hnd'.1 (he ▸ List.mem_map_of_mem Prod.fst h1)
      have hstep : lookupNat (p :: rest) kv.1 = lookupNat rest kv.1 := by
        unfold lookupNat
        rw [List.find?_cons_of_neg _ (by simp [hne])]
      rw [hstep]
      exact ih hnd'.2 kv h1

theorem incKey_map_fst (key : String) (l : List (String × Nat)) :
    (incKey key l).map Prod.fst = l.map Prod.fst := by
  induction l with
  | nil => rfl
  | cons p rest ih =>
    by_cases h : (p.1 == key) = true <;> simp [incKey, h, ih]

theorem countInstanceTypes_map_fst (ns : List Node) :
    ∀ l, (countInstanceTypes ns l).map Prod.fst = l.map Prod.fst := by
  induction ns with
  | nil => intro l; rfl
  | cons node rest ih =>
    intro l
    cases hv : labelLookup node instanceTypeLabel <;>
      simp [countInstanceTypes, hv, ih, incKey_map_fst]

theorem exists_pos_incKey (key : String) (l : List (String × Nat)) :
    (∃ kv ∈ incKey key l, 0 < kv.2) ↔
      key ∈ l.map Prod.fst ∨ ∃ kv ∈ l, 0 < kv.2 := by
  induction l with
  | nil => simp [incKey]
  | cons p rest ih =>
    by_cases h : p.1 = key
    · simp [incKey, h]
    · have hb : (p.1 == key) = false := by rw [beq_eq_false_iff_ne]; exact h
      simp only [incKey, hb, Bool.false_eq_true, if_neg, not_false_iff,
        List.mem_cons, List.map_cons]
      simp [ih, h]
      tauto

theorem exists_pos_countInstanceTypes (ns : List Node) : ∀ l,
    (∃ kv ∈ countInstanceTypes ns l, 0 < kv.2) ↔
      (∃ kv ∈ l, 0 < kv.2) ∨
      ∃ n ∈ ns, ∃ v, labelLookup n instanceTypeLabel = some v ∧ v ∈ l.map Prod.fst := by
  induction ns with
  | nil => intro l; simp [countInstanceTypes]
  | cons node rest ih =>
    intro l
    cases hv : labelLookup node instanceTypeLabel with
    | none =>
      simp only [countInstanceTypes, hv]
      rw [ih l]
      simp [hv]
    | some v =>
      simp only [countInstanceTypes, hv]
      rw [ih (incKey v l)]
      rw [exists_pos_incKey]
      simp only [incKey_map_fst]
      constructor
      · rintro ((hvin | hpos) | hrest)
        · exact Or.inr ⟨node, List.mem_cons_self node rest, v, hv, hvin⟩
        · exact Or.inl hpos
        · obtain ⟨n, hn, v', hv', hvin'⟩ := hrest
          exact Or.inr ⟨n, List.mem_cons_of_mem node hn, v', hv', hvin'⟩
      · rintro (hpos | ⟨n, hn, v', hv', hvin'⟩)
        · exact Or.inl (Or.inr hpos)
        · rcases List.mem_cons.mp hn with he | hn'
          · rw [he, hv] at hv'
            have hveq : v' = v := (Option.some.inj hv').symm
            exact Or.inl (Or.inl (hveq ▸ hvin'))
          · exact Or.inr ⟨n, hn', v', hv', hvin'⟩

theorem azure_instance_type_iff (nodes : List Node) :
    azure_instance_type nodes = true ↔
      ∃ n ∈ nodes, ∃ v, labelLookup n instanceTypeLabel = some v ∧ v ∈ skuNames := by
  have hkeys : (countInstanceTypes nodes instanceTypesInit).map Prod.fst = skuNames := by
    rw [countInstanceTypes_map_fst]; rfl
  have hchain := exists_pos_countInstanceTypes nodes instanceTypesInit
  unfold azure_instance_type
  cases hc : countInstanceTypes nodes instanceTypesInit with
  | nil =>
    rw [hc] at hkeys
    simp [skuNames, instanceTypesInit] at hkeys
  | cons c cs =>
    rw [hc] at hkeys hchain
    have hnd : ((c :: cs).map Prod.fst).Nodup := by rw [hkeys]; decide
    have hmem : maxPairFrom c cs ∈ c :: cs := maxPairFrom_mem cs c
    have hlook : lookupNat (c :: cs) (maxKeyFrom c cs) = (maxPairFrom c cs).2 := by
      rw [maxKeyFrom_eq_fst]
      exact lookupNat_of_nodup (c :: cs) hnd _ hmem
    show (!(lookupNat (c :: cs) (maxKeyFrom c cs) == 0)) = true ↔ _
    rw [hlook]
    have hpos : 0 < (maxPairFrom c cs).2 ↔ ∃ kv ∈ c :: cs, 0 < kv.2 := by
      constructor
      · intro h; exact ⟨maxPairFrom c cs, hmem, h⟩
      · rintro ⟨kv, hkv, h⟩
        exact Nat.lt_of_lt_of_le h (maxPairFrom_ge cs c kv hkv)
    have hinit : ¬ ∃ kv ∈ instanceTypesInit, 0 < kv.2 := by decide
    constructor
    · intro h
      have h0 : (maxPairFrom c cs).2 ≠ 0 := by simpa using h
      rcases hchain.mp (hpos.mp (Nat.pos_of_ne_zero h0)) with h1 | h1
      · exact absurd h1 hinit
      · simpa [skuNames] using h1
    · intro h
      have hx : ∃ kv ∈ c :: cs, 0 < kv.2 :=
        hchain.mpr (Or.inr (by simpa [skuNames] using h))
      have := hpos.mpr hx
      simp [Nat.pos_iff_ne_zero.mp this]

/-- Concrete sample node reporting an allow-listed Azure GPU SKU. -/
def skuNode : Node :=
  ⟨"gpu-1", [("beta.kubernetes.io/instance-type", "Standard_NC24ads_A100_v4")], []⟩

/-- C3: for the azure provider the instance-type check passes iff some
node's instance-type label value is one of the five allow-listed SKUs (a
zero-node cluster fails); for any other provider the check fails for every
node list alike, without depending on the nodes. -/
theorem instance_type_spec :
    (∀ nodes : List Node,
      (test_instance_type "azure" nodes = true ↔
        ∃ n ∈ nodes, ∃ v, labelLookup n instanceTypeLabel = some v ∧ v ∈ skuNames)) ∧
    test_instance_type "azure" [] = false ∧
    (∀ provider : String, (provider == "azure") = false →
      ∀ nodes : List Node, test_instance_type provider nodes = false) := by
  refine ⟨?_, by decide, ?_⟩
  · intro nodes
    show azure_instance_type nodes = true ↔ _
    exact azure_instance_type_iff nodes
  · intro provider hp nodes
    unfold test_instance_type
    simp [hp]

theorem instance_type_spec_witness :
    ("aws" == "azure") = false ∧
    test_instance_type "aws" [skuNode] = false ∧
    test_instance_type "azure" [skuNode] = true :=
  ⟨by decide, instance_type_spec.2.2 "aws" (by decide) [skuNode],
    (instance_type_spec.1 [skuNode]).mpr
      ⟨skuNode, by decide, "Standard_NC24ads_A100_v4", by decide, by decide⟩⟩

theorem countInstanceTypes_append (xs ys : List Node) : ∀ l,
    countInstanceTypes (xs ++ ys) l = countInstanceTypes ys (countInstanceTypes xs l) := by
  induction xs with
  | nil => intro l; rfl
  | cons n rest ih =>
    intro l
    cases hv : labelLookup n instanceTypeLabel <;>
      simp [countInstanceTypes, hv, ih]

theorem incKey_not_mem (key : String) (l : List (String × Nat))
    (h : key ∉ l.map Prod.fst) : incKey key l = l := by
  induction l with
  | nil => rfl
  | cons p rest ih =>
    simp only [List.map_cons, List.mem_cons, not_or] at h
    have hb : (p.1 == key) = false := by
      rw [beq_eq_false_iff_ne]
      exact fun e => h.1 e.symm
    simp [incKey, hb, ih h.2]

/-- C7: appending a node whose instance-type label value is outside the
five-SKU allow-list never changes the azure instance-type check (the
`KeyError` is swallowed, the node is not counted and not reported). -/
theorem unknown_sku_ignored (nodes : List Node) (n : Node) (v : String)
    (hv : labelLookup n instanceTypeLabel = some v) (hunk : v ∉ skuNames) :
    test_instance_type "azure" (nodes ++ [n]) = test_instance_type "azure" nodes := by
  unfold test_instance_type
  have heq : azure_instance_type (nodes ++ [n]) = azure_instance_type nodes := by
    unfold azure_instance_type
    rw [countInstanceTypes_append]
    have hkeys : (countInstanceTypes nodes instanceTypesInit).map Prod.fst = skuNames := by
      rw [countInstanceTypes_map_fst]; rfl
    simp only [countInstanceTypes, hv]
    rw [incKey_not_mem v _ (by rw [hkeys]; exact hunk)]
  rw [heq]

/-- Concrete sample node reporting a non-allow-listed instance type. -/
def unknownNode : Node :=
  ⟨"cpu-1", [("beta.kubernetes.io/instance-type", "Standard_D2s_v3")], []⟩

theorem unknown_sku_ignored_witness :
    labelLookup unknownNode instanceTypeLabel = some "Standard_D2s_v3" ∧
    "Standard_D2s_v3" ∉ skuNames ∧
    test_instance_type "azure" ([skuNode] ++ [unknownNode]) =
      test_instance_type "azure" [skuNode] :=
  ⟨by decide, by decide,
    unknown_sku_ignored [skuNode] unknownNode "Standard_D2s_v3" (by decide) (by decide)⟩

/-! ### Check registry, runner, reporter and process control flow -/

/-- One entry of `self.tests` (source lines 39-54) after `run` has filled
in its `result` field. -/
structure CheckEntry where
  name : String
  description : String
  suggested_action : String
  result : Bool
deriving DecidableEq

/-- The remediation text of the instance-type check (source line 44). -/
def instanceTypeAction : String :=
  "Provision a cluster with at least one supported instance type"

/-- The remediation text of the GPU check (source line 51). -/
def gpuAction : String :=
  "Provision a cluster with at least one supported GPU driver"

/-- Registry `self.tests` in registration order (source lines 39-54), with the two
results as recorded in place by `run` (source lines 158-166). -/
def mkTests (instRes gpuRes : Bool) : List CheckEntry :=
  [⟨"instance_type", "Test if the cluster has at least one supported instance type",
    instanceTypeAction, instRes⟩,
   ⟨"gpu_availablity", "Test if the cluster has GPU drivers",
    gpuAction, gpuRes⟩]

/-- Embedding of `run(self.tests)` (source lines 56, 158-166): each check's predicate is
evaluated once against the cluster state and its boolean lands in the
`result` field, in registration order. -/
def runChecks (cloud_provider : String) (nodes : List Node) : List CheckEntry :=
  mkTests (test_instance_type cloud_provider nodes) (test_gpu_availablity nodes)

/-- The stdout lines `report` prints for one check (source lines 169-174):
one PASSED line, or one FAILED line followed by the suggested action. -/
def entryLines (t : CheckEntry) : List String :=
  if t.result then ["Test " ++ t.name ++ " PASSED"]
  else ["Test " ++ t.name ++ " FAILED",
        "    Suggested action: " ++ t.suggested_action]

/-- Embedding of `report` (source lines 168-175): the checks' lines in registration
order. -/
def reportLines (tests : List CheckEntry) : List String :=
  tests.foldr (fun t acc => entryLines t ++ acc) []

/-- Provider resolution in `__init__` (source lines 30-37): "auto" is
replaced by the detector's answer, anything else is kept as given. -/
def resolveProvider (cloud_provider : String) (nodes : List Node) : String :=
  if cloud_provider == "auto" then detect_cloud_provider nodes else cloud_provider

/-- The observable outcome of one process run: stdout report lines and the
process exit code.  Models `main`/`__init__` (source lines 24-57, 225-231):
a failed Kubernetes connection exits 1 before anything is printed; a
provider given as "auto" that detection resolves to "none" exits 2 before
any check runs; otherwise the checks run against the resolved provider, the
report prints, and `sys.exit(main())` with `main` returning `None` exits 0
regardless of the individual check results. -/
def runProcess (connOk : Bool) (cloud_provider : String) (nodes : List Node) :
    List String × Nat :=
  if connOk = false then ([], 1)
  else if cloud_provider == "auto" && (detect_cloud_provider nodes == "none") then ([], 2)
  else (reportLines (runChecks (resolveProvider cloud_provider nodes) nodes), 0)

/-- C8: for the registered sequence [instance_type, gpu_availablity] and
every combination of outcomes, the report is exactly the instance-type
check's status line, its remediation line iff it failed, then the GPU
check's status line and its remediation line iff it failed. -/
theorem report_format :
    ∀ instRes gpuRes : Bool,
      reportLines (mkTests instRes gpuRes) =
        (if instRes then ["Test instance_type PASSED"]
         else ["Test instance_type FAILED",
               "    Suggested action: " ++ instanceTypeAction]) ++
        (if gpuRes then ["Test gpu_availablity PASSED"]
         else ["Test gpu_availablity FAILED",
               "    Suggested action: " ++ gpuAction]) ∧
      (("    Suggested action: " ++ instanceTypeAction) ∈
          reportLines (mkTests instRes gpuRes) ↔ instRes = false) ∧
      (("    Suggested action: " ++ gpuAction) ∈
          reportLines (mkTests instRes gpuRes) ↔ gpuRes = false) := by
  intro instRes gpuRes
  cases instRes <;> cases gpuRes <;>
    refine ⟨rfl, ?_, ?_⟩ <;> simp [reportLines, mkTests, entryLines] <;> decide

/-- C4: the process exits 1 on a failed cluster connection with nothing
printed, exits 2 (again with nothing printed) when the provider input was
"auto" and detection yielded "none", and otherwise exits 0 whatever the
individual check outcomes on the given nodes are. -/
theorem exit_code_spec (connOk : Bool) (provider : String) (nodes : List Node) :
    (connOk = false → runProcess connOk provider nodes = ([], 1)) ∧
    (connOk = true → provider = "auto" → detect_cloud_provider nodes = "none" →
      runProcess connOk provider nodes = ([], 2)) ∧
    (connOk = true → ¬(provider = "auto" ∧ detect_cloud_provider nodes = "none") →
      (runProcess connOk provider nodes).2 = 0) := by
  refine ⟨?_, ?_, ?_⟩
  · intro h
    simp [runProcess, h]
  · intro hc hp hd
    simp [runProcess, hc, hp, hd]
  · intro hc hnd
    have hcond : (provider == "auto" && (detect_cloud_provider nodes == "none")) = false := by
      by_cases h1 : provider = "auto"
      · have h2 : detect_cloud_provider nodes ≠ "none" := fun h => hnd ⟨h1, h⟩
        simp [h1, h2]
      · simp [h1]
    simp [runProcess, hc, hcond]

theorem exit_code_spec_witness :
    runProcess false "azure" [] = ([], 1) ∧
    runProcess true "auto" [] = ([], 2) ∧
    (runProcess true "azure" []).2 = 0 :=
  ⟨(exit_code_spec false "azure" []).1 rfl,
   (exit_code_spec true "auto" []).2.1 rfl rfl rfl,
   (exit_code_spec true "azure" []).2.2 rfl
     (fun h => absurd h.1 (by decide))⟩

/-- C9: the provider value the checks see is never "auto": either the user
supplied a concrete value, which is kept, or detection replaced "auto" with
its answer, which is only ever "azure" or "none" — and in every connected
run the process either stops with exit code 2 before the checks or runs
them with the resolved provider. -/
theorem provider_resolved_before_checks (provider : String) (nodes : List Node) :
    (resolveProvider provider nodes == "auto") = false ∧
    (runProcess true provider nodes = ([], 2) ∨
      runProcess true provider nodes =
        (reportLines (runChecks (resolveProvider provider nodes) nodes), 0)) := by
  constructor
  · unfold resolveProvider
    by_cases h : (provider == "auto") = true
    · rw [if_pos h, detect_eq]
      cases hany : nodes.any (fun n => hasLabel n azureClusterLabel) <;> simp [hany]
    · rw [if_neg h]
      simpa using h
  · unfold runProcess
    rw [if_neg (by simp)]
    by_cases h2 : (provider == "auto" && (detect_cloud_provider nodes == "none")) = true
    · rw [if_pos h2]
      exact Or.inl rfl
    · rw [if_neg h2]
      exact Or.inr rfl

theorem provider_resolved_before_checks_witness :
    (resolveProvider "auto" [azureNode] == "auto") = false ∧
    (resolveProvider "azure" [] == "auto") = false :=
  ⟨(provider_resolved_before_checks "auto" [azureNode]).1,
   (provider_resolved_before_checks "azure" []).1⟩

/-- The keyword-argument record built from the CLI flags (source lines
178-222): the kube-config flag is parsed into `kube_config` (defaulting from
the `KUBECONFIG` environment variable). -/
structure Kwargs where
  log_level : String
  cloud_provider : String
  kube_config : Option String
deriving DecidableEq

/-- The explicit path argument that `_k8s_connection` (source lines 67-75)
hands to `kubernetes.config.load_kube_config()`: the call at line 69 is
made with no arguments whatever the parsed `kwargs` hold, and `__init__`
(source lines 14-24) reads only `log_level` and `cloud_provider` out of
`kwargs` — the parsed `kube_config` value is never consulted anywhere. -/
def kubeConfigPathPassed (_kw : Kwargs) : Option String := none

/-- C5 is contradicted by the code: for every parsed argument record — in
particular one carrying an explicit `-k` path — the connection step passes
no path at all to the kube-config loader, so an explicitly passed path is
never honoured there; discovery is left entirely to the client library's
ambient rules. -/
theorem kube_config_flag_ignored :
    (∀ kw : Kwargs, kubeConfigPathPassed kw = none) ∧
    kubeConfigPathPassed ⟨"INFO", "auto", some "/tmp/custom-kubeconfig"⟩ = none :=
  ⟨fun _ => rfl, rfl⟩
